import Mathlib

/-!
Verification of the TrackingService billing core (src/main.go).

Timestamps (Go time.Time) and durations (Go time.Duration) are embedded as
integer nanoseconds (ℤ); monetary rates (Go float64) as ℚ.  The Go code's
internal clock read (time.Since, used by calculatePayment when end is nil)
is made explicit as a sysNow parameter, so the effect of the clock on the
result can be stated and proved.
-/

/-- Nanoseconds per hour: time.Duration.Hours divides by this (3600 * 1e9). -/
def nsPerHour : ℤ := 3600000000000

/-- Embedding of calculatePayment (src/main.go lines 189-202):
elapsed is end − start when end is non-nil, otherwise time.Since(start);
sysNow is the value time.Now() returned inside time.Since at the call.
hours = elapsed.Hours(), billableHours = int(math.Ceil(hours)),
result = (billableHours + 1) * rate. -/
def calculatePayment (rate : ℚ) (start : ℤ) (endOpt : Option ℤ) (sysNow : ℤ) : ℚ :=
  let elapsed : ℤ :=
    match endOpt with
    | some e => e - start
    | none => sysNow - start
  let hours : ℚ := (elapsed : ℚ) / (nsPerHour : ℚ)
  let billableHours : ℤ := ⌈hours⌉
  ((billableHours : ℚ) + 1) * rate

/-- Modelled from the spec (section 4.1 Billing Engine), for comparison with
the source's calculatePayment only: billableHours = ceil(elapsed hours) with
a minimum of one billable hour, amountOwed = billableHours * rate. -/
def specPayment (rate : ℚ) (elapsedNs : ℤ) : ℚ :=
  ((max 1 ⌈(elapsedNs : ℚ) / (nsPerHour : ℚ)⌉ : ℤ) : ℚ) * rate

/-- Embedding of the Session record (src/main.go lines 15-20, gorm.Model
fields inlined): DeletedAt (a nullable timestamp, gorm soft-delete) is the
stop marker, so stoppedAt = deletedAt here. -/
structure Session where
  id : Nat
  createdAt : ℤ
  updatedAt : ℤ
  deletedAt : Option ℤ
  title : String
  category : String
  rate : ℚ
deriving DecidableEq, Repr

/-- Embedding of the state transition performed by the stopSession handler
(src/main.go lines 157-187): if DeletedAt is already valid the stored record
is returned unchanged (lines 170-173); otherwise deleted_at is set to now
(line 176), and gorm's Update also refreshes UpdatedAt to the same moment. -/
def requestStop (s : Session) (now : ℤ) : Session :=
  if s.deletedAt.isSome then s
  else { s with deletedAt := some now, updatedAt := now }

/-- Round to the nearest integer, ties to even: Go fmt %.0f rounding. -/
def roundHalfEven (q : ℚ) : ℤ :=
  if q - (⌊q⌋ : ℚ) = 1 / 2 then (if ⌊q⌋ % 2 = 0 then ⌊q⌋ else ⌊q⌋ + 1)
  else round q

/-- Embedding of fmt.Sprintf with format percent .0f of duration.Seconds()
followed by the letter s (src/main.go line 105). -/
def fmtSeconds (ns : ℤ) : String :=
  toString (roundHalfEven ((ns : ℚ) / 1000000000)) ++ "s"

/-- Embedding of SessionResponse (src/main.go lines 22-31). -/
structure SessionResponse where
  id : Nat
  createdAt : ℤ
  updatedAt : ℤ
  deletedAt : Option ℤ
  title : String
  category : String
  payment : ℚ
  duration : String
deriving DecidableEq, Repr

/-- Embedding of toResponse (src/main.go lines 85-109): end is taken from
DeletedAt when valid; payment is always computed (calculatePayment reads the
clock, here sysNow, when end is nil); Duration and the response's DeletedAt
are filled only when end is non-nil, Duration staying at its zero value ""
otherwise. -/
def toResponse (s : Session) (sysNow : ℤ) : SessionResponse :=
  let payment := calculatePayment s.rate s.createdAt s.deletedAt sysNow
  match s.deletedAt with
  | some e =>
    { id := s.id, createdAt := s.createdAt, updatedAt := s.updatedAt,
      deletedAt := some e, title := s.title, category := s.category,
      payment := payment, duration := fmtSeconds (e - s.createdAt) }
  | none =>
    { id := s.id, createdAt := s.createdAt, updatedAt := s.updatedAt,
      deletedAt := none, title := s.title, category := s.category,
      payment := payment, duration := "" }

/-! Helper lemmas shared by several claims. -/

/-- Unfolding calculatePayment on a stopped session. -/
theorem calculatePayment_some (rate : ℚ) (start e sysNow : ℤ) :
    calculatePayment rate start (some e) sysNow
      = ((⌈((e - start : ℤ) : ℚ) / (nsPerHour : ℚ)⌉ : ℚ) + 1) * rate := rfl

/-- Unfolding calculatePayment on a running session. -/
theorem calculatePayment_none (rate : ℚ) (start sysNow : ℤ) :
    calculatePayment rate start none sysNow
      = ((⌈((sysNow - start : ℤ) : ℚ) / (nsPerHour : ℚ)⌉ : ℚ) + 1) * rate := rfl

/-- The cast of nsPerHour into ℚ as a numeral. -/
theorem nsPerHour_cast : ((nsPerHour : ℤ) : ℚ) = 3600000000000 := by
  norm_num [nsPerHour]

/-! Claim C1. -/

/-- C1 counterexample: at rate 1 with a stopped elapsed duration of 90
minutes, the code returns 3 while the claimed ceil-with-minimum-1 policy
gives 2: calculatePayment is not specPayment. -/
theorem calculatePayment_ne_specPayment_at_90min :
    calculatePayment 1 0 (some 5400000000000) 0 = 3 ∧
    specPayment 1 5400000000000 = 2 ∧
    calculatePayment 1 0 (some 5400000000000) 0 ≠ specPayment 1 5400000000000 := by
  have hc : ⌈((5400000000000 - 0 : ℤ) : ℚ) / (nsPerHour : ℚ)⌉ = 2 := by
    rw [nsPerHour_cast, Int.ceil_eq_iff]
    push_cast
    norm_num
  have hc2 : ⌈((5400000000000 : ℤ) : ℚ) / (nsPerHour : ℚ)⌉ = 2 := by
    rw [nsPerHour_cast, Int.ceil_eq_iff]
    push_cast
    norm_num
  have h1 : calculatePayment 1 0 (some 5400000000000) 0 = 3 := by
    rw [calculatePayment_some, hc]
    norm_num
  have h2 : specPayment 1 5400000000000 = 2 := by
    rw [specPayment, hc2]
    norm_num
  refine ⟨h1, h2, ?_⟩
  rw [h1, h2]
  norm_num

/-- C1 amended: for every rate ≥ 0 and non-negative elapsed duration d, the
code returns (ceil(d in hours) + 1) * rate: billable hours are the plain
ceiling with no minimum-1 floor, and one extra hour is always added, so the
amount is always at least rate. -/
theorem calculatePayment_is_ceil_plus_one (rate : ℚ) (start d sysNow : ℤ)
    (hrate : 0 ≤ rate) (hd : 0 ≤ d) :
    calculatePayment rate start (some (start + d)) sysNow
      = ((⌈(d : ℚ) / (nsPerHour : ℚ)⌉ : ℚ) + 1) * rate ∧
    rate ≤ calculatePayment rate start (some (start + d)) sysNow := by
  have hsub : start + d - start = d := by ring
  have hmain : calculatePayment rate start (some (start + d)) sysNow
      = ((⌈(d : ℚ) / (nsPerHour : ℚ)⌉ : ℚ) + 1) * rate := by
    rw [calculatePayment_some, hsub]
  refine ⟨hmain, ?_⟩
  rw [hmain]
  have hc : (0 : ℤ) ≤ ⌈(d : ℚ) / (nsPerHour : ℚ)⌉ := by
    apply Int.ceil_nonneg
    apply div_nonneg
    · exact_mod_cast hd
    · rw [nsPerHour_cast]; norm_num
  have hc1 : (1 : ℚ) ≤ (⌈(d : ℚ) / (nsPerHour : ℚ)⌉ : ℚ) + 1 := by
    have : (0 : ℚ) ≤ (⌈(d : ℚ) / (nsPerHour : ℚ)⌉ : ℚ) := by exact_mod_cast hc
    linarith
  calc rate = 1 * rate := (one_mul rate).symm
    _ ≤ ((⌈(d : ℚ) / (nsPerHour : ℚ)⌉ : ℚ) + 1) * rate :=
        mul_le_mul_of_nonneg_right hc1 hrate

/-- C1 witness: the amended theorem applied at rate 2, start 0, d 90 min. -/
theorem calculatePayment_is_ceil_plus_one_witness :
    (0 : ℚ) ≤ 2 ∧ (0 : ℤ) ≤ 5400000000000 ∧
    (calculatePayment 2 0 (some (0 + 5400000000000)) 0
        = ((⌈(5400000000000 : ℚ) / (nsPerHour : ℚ)⌉ : ℚ) + 1) * 2 ∧
      2 ≤ calculatePayment 2 0 (some (0 + 5400000000000)) 0) := by
  refine ⟨by norm_num, by norm_num, ?_⟩
  have h := calculatePayment_is_ceil_plus_one 2 0 5400000000000 0
    (by norm_num) (by norm_num)
  exact_mod_cast h

/-! Claim C2. -/

/-- C2: requestStop is idempotent: stopping an already-stopped session
returns the stored record unchanged (stoppedAt and updatedAt included), so
a second stop at any later time t2 changes nothing. -/
theorem requestStop_idempotent (s : Session) (t1 t2 : ℤ) (h : t1 ≤ t2) :
    requestStop (requestStop s t1) t2 = requestStop s t1 := by
  cases hda : s.deletedAt with
  | some t => simp [requestStop, hda]
  | none => simp [requestStop, hda]

/-- C2 witness: the idempotence theorem applied to a concrete running
session at t1 = 0, t2 = 5. -/
theorem requestStop_idempotent_witness :
    (0 : ℤ) ≤ 5 ∧
    requestStop
        (requestStop
          { id := 1, createdAt := 0, updatedAt := 0, deletedAt := none,
            title := "work", category := "dev", rate := 10 } 0) 5
      = requestStop
          { id := 1, createdAt := 0, updatedAt := 0, deletedAt := none,
            title := "work", category := "dev", rate := 10 } 0 :=
  ⟨by norm_num, requestStop_idempotent _ 0 5 (by norm_num)⟩

/-! Claim C3. -/

/-- C3 counterexample: at rate 1 with a stopped duration of exactly 180
minutes the code returns 4, not the claimed 3 * rate = 3. -/
theorem calculatePayment_180min_ne_three :
    calculatePayment 1 0 (some 10800000000000) 0 = 4 ∧
    calculatePayment 1 0 (some 10800000000000) 0 ≠ 3 * 1 := by
  have hc : ⌈((10800000000000 - 0 : ℤ) : ℚ) / (nsPerHour : ℚ)⌉ = 3 := by
    rw [nsPerHour_cast, Int.ceil_eq_iff]
    push_cast
    norm_num
  have h1 : calculatePayment 1 0 (some 10800000000000) 0 = 4 := by
    rw [calculatePayment_some, hc]
    norm_num
  refine ⟨h1, ?_⟩
  rw [h1]
  norm_num

/-- C3 amended: for every rate ≥ 0 and start time t, a session stopped at
t + 180 minutes has internal ceiling 3 (the exact-hour boundary adds no
rounding), but the code then adds one unconditional extra hour, so the
amount is 4 * rate, not 3 * rate. -/
theorem calculatePayment_exact_three_hours (rate : ℚ) (t n : ℤ)
    (hrate : 0 ≤ rate) :
    calculatePayment rate t (some (t + 10800000000000)) n = 4 * rate := by
  have hsub : t + 10800000000000 - t = (10800000000000 : ℤ) := by ring
  have hc : ⌈((10800000000000 : ℤ) : ℚ) / (nsPerHour : ℚ)⌉ = 3 := by
    rw [nsPerHour_cast, Int.ceil_eq_iff]
    push_cast
    norm_num
  rw [calculatePayment_some, hsub, hc]
  norm_num

/-- C3 witness: the amended theorem applied at rate 2, t = 0. -/
theorem calculatePayment_exact_three_hours_witness :
    (0 : ℚ) ≤ 2 ∧
    calculatePayment 2 0 (some (0 + 10800000000000)) 0 = 4 * 2 :=
  ⟨by norm_num, calculatePayment_exact_three_hours 2 0 0 (by norm_num)⟩

/-! Claim C4. -/

/-- C4 counterexample: with rate 1 and an end two hours before the start
(end = -7200000000000 < 0 = start), the code returns -1 < 0: negative
durations are not clamped to 0 and the amount can be negative. -/
theorem calculatePayment_neg_two_hours_negative :
    (-7200000000000 : ℤ) < 0 ∧
    calculatePayment 1 0 (some (-7200000000000)) 0 < 0 := by
  have hc : ⌈((-7200000000000 - 0 : ℤ) : ℚ) / (nsPerHour : ℚ)⌉ = -2 := by
    rw [nsPerHour_cast, Int.ceil_eq_iff]
    push_cast
    norm_num
  have h1 : calculatePayment 1 0 (some (-7200000000000)) 0 = -1 := by
    rw [calculatePayment_some, hc]
    push_cast
    norm_num
  refine ⟨by norm_num, ?_⟩
  rw [h1]
  norm_num

/-- C4 amended: no clamp exists in the code. For the claim's own example,
end = t - 5 seconds, the ceiling of the (negative) fractional hour is 0 and
the unconditional extra hour makes the result rate, which is non-negative --
but that comes from the extra-hour term, not a clamp, and ends two or more
hours before the start produce a negative amount. -/
theorem calculatePayment_five_sec_before (rate : ℚ) (t n : ℤ)
    (hrate : 0 ≤ rate) :
    calculatePayment rate t (some (t - 5000000000)) n = rate ∧
    0 ≤ calculatePayment rate t (some (t - 5000000000)) n := by
  have hsub : t - 5000000000 - t = (-5000000000 : ℤ) := by ring
  have hc : ⌈((-5000000000 : ℤ) : ℚ) / (nsPerHour : ℚ)⌉ = 0 := by
    rw [nsPerHour_cast, Int.ceil_eq_iff]
    push_cast
    norm_num
  have hmain : calculatePayment rate t (some (t - 5000000000)) n = rate := by
    rw [calculatePayment_some, hsub, hc]
    push_cast
    ring
  refine ⟨hmain, ?_⟩
  rw [hmain]
  exact hrate

/-- C4 witness: the amended theorem applied at rate 3, t = 0. -/
theorem calculatePayment_five_sec_before_witness :
    (0 : ℚ) ≤ 3 ∧
    (calculatePayment 3 0 (some (0 - 5000000000)) 0 = 3 ∧
      0 ≤ calculatePayment 3 0 (some (0 - 5000000000)) 0) :=
  ⟨by norm_num, calculatePayment_five_sec_before 3 0 0 (by norm_num)⟩

/-! Claim C5. -/

/-- C5 counterexample: calculatePayment has no explicit now parameter in the
source; for a running session (end nil) it reads the system clock through
time.Since, and its result depends on that read: two calls with identical
stored inputs (rate 1, createdAt 0, stoppedAt absent) but clock readings 0
and 7200000000000 return 1 and 3 respectively. -/
theorem calculatePayment_running_depends_on_clock :
    calculatePayment 1 0 none 0 ≠ calculatePayment 1 0 none 7200000000000 := by
  have hc0 : ⌈((0 - 0 : ℤ) : ℚ) / (nsPerHour : ℚ)⌉ = 0 := by
    rw [nsPerHour_cast, Int.ceil_eq_iff]
    push_cast
    norm_num
  have hc2 : ⌈((7200000000000 - 0 : ℤ) : ℚ) / (nsPerHour : ℚ)⌉ = 2 := by
    rw [nsPerHour_cast, Int.ceil_eq_iff]
    push_cast
    norm_num
  have h1 : calculatePayment 1 0 none 0 = 1 := by
    rw [calculatePayment_none, hc0]
    norm_num
  have h2 : calculatePayment 1 0 none 7200000000000 = 3 := by
    rw [calculatePayment_none, hc2]
    norm_num
  rw [h1, h2]
  norm_num

/-- C5 amended: when stoppedAt is present the clock is never consulted: the
result is a deterministic function of (rate, createdAt, stoppedAt) alone,
identical across any two internal clock readings. -/
theorem calculatePayment_stopped_clock_irrelevant (rate : ℚ)
    (start e n1 n2 : ℤ) :
    calculatePayment rate start (some e) n1
      = calculatePayment rate start (some e) n2 := rfl

/-! Claim C6. -/

/-- C6: once stoppedAt is set it is terminal: a session whose deletedAt is
already some t keeps exactly that value through any further requestStop,
whatever time is supplied. -/
theorem requestStop_preserves_stoppedAt (s : Session) (t now : ℤ)
    (h : s.deletedAt = some t) :
    (requestStop s now).deletedAt = some t := by
  simp [requestStop, h]

/-- C6 witness: the invariant applied to a concrete stopped session. -/
theorem requestStop_preserves_stoppedAt_witness :
    (Session.deletedAt
        { id := 1, createdAt := 0, updatedAt := 3, deletedAt := some 3,
          title := "work", category := "dev", rate := 5 } = some 3) ∧
    (requestStop
        { id := 1, createdAt := 0, updatedAt := 3, deletedAt := some 3,
          title := "work", category := "dev", rate := 5 } 9).deletedAt
      = some 3 :=
  ⟨rfl, requestStop_preserves_stoppedAt _ 3 9 rfl⟩

/-! Claim C7. -/

/-- C7: on a running session (deletedAt absent) requestStop sets exactly
stoppedAt and updatedAt to now and leaves id, title, category, rate and
createdAt unchanged. -/
theorem requestStop_frame (s : Session) (now : ℤ) (h : s.deletedAt = none) :
    (requestStop s now).deletedAt = some now ∧
    (requestStop s now).updatedAt = now ∧
    (requestStop s now).id = s.id ∧
    (requestStop s now).title = s.title ∧
    (requestStop s now).category = s.category ∧
    (requestStop s now).rate = s.rate ∧
    (requestStop s now).createdAt = s.createdAt := by
  simp [requestStop, h]

/-- C7 witness: the frame theorem applied to a concrete running session. -/
theorem requestStop_frame_witness :
    (Session.deletedAt
        { id := 7, createdAt := 2, updatedAt := 2, deletedAt := none,
          title := "work", category := "dev", rate := 5 } = none) ∧
    ((requestStop
        { id := 7, createdAt := 2, updatedAt := 2, deletedAt := none,
          title := "work", category := "dev", rate := 5 } 11).deletedAt
        = some 11 ∧
      (requestStop
        { id := 7, createdAt := 2, updatedAt := 2, deletedAt := none,
          title := "work", category := "dev", rate := 5 } 11).updatedAt = 11 ∧
      (requestStop
        { id := 7, createdAt := 2, updatedAt := 2, deletedAt := none,
          title := "work", category := "dev", rate := 5 } 11).id = 7 ∧
      (requestStop
        { id := 7, createdAt := 2, updatedAt := 2, deletedAt := none,
          title := "work", category := "dev", rate := 5 } 11).title = "work" ∧
      (requestStop
        { id := 7, createdAt := 2, updatedAt := 2, deletedAt := none,
          title := "work", category := "dev", rate := 5 } 11).category = "dev" ∧
      (requestStop
        { id := 7, createdAt := 2, updatedAt := 2, deletedAt := none,
          title := "work", category := "dev", rate := 5 } 11).rate = 5 ∧
      (requestStop
        { id := 7, createdAt := 2, updatedAt := 2, deletedAt := none,
          title := "work", category := "dev", rate := 5 } 11).createdAt = 2) :=
  ⟨rfl, requestStop_frame _ 11 rfl⟩

/-! Claim C8. -/

/-- C8: toResponse always fills Payment from calculatePayment over the
stored fields, and fills Duration exactly for stopped sessions, formatting
stoppedAt - createdAt; for running sessions Duration stays empty. -/
theorem toResponse_duration_payment (s : Session) (sysNow : ℤ) :
    (toResponse s sysNow).payment
      = calculatePayment s.rate s.createdAt s.deletedAt sysNow ∧
    (toResponse s sysNow).duration
      = Option.elim s.deletedAt "" (fun e => fmtSeconds (e - s.createdAt)) := by
  cases h : s.deletedAt with
  | some e => simp [toResponse, h]
  | none => simp [toResponse, h]

/-! Claim C9. -/

/-- C9: any stopped elapsed duration d with 0 < d ≤ one hour is billed at
exactly 2 * rate: the internal ceiling is 1 and the code adds one more full
hour, so even a one-nanosecond session owes double the single-hour rate. -/
theorem calculatePayment_within_first_hour (rate : ℚ) (t d n : ℤ)
    (h0 : 0 < d) (h1 : d ≤ nsPerHour) :
    calculatePayment rate t (some (t + d)) n = 2 * rate := by
  have hsub : t + d - t = d := by ring
  have h1q : (d : ℚ) ≤ 3600000000000 := by
    have h1z : d ≤ (3600000000000 : ℤ) := h1
    exact_mod_cast h1z
  have h0q : (0 : ℚ) < (d : ℚ) := by exact_mod_cast h0
  have hc : ⌈(d : ℚ) / (nsPerHour : ℚ)⌉ = 1 := by
    rw [nsPerHour_cast, Int.ceil_eq_iff]
    constructor
    · have hpos : (0 : ℚ) < (d : ℚ) / 3600000000000 :=
        div_pos h0q (by norm_num)
      push_cast
      linarith
    · push_cast
      rw [div_le_one (by norm_num : (0 : ℚ) < 3600000000000)]
      linarith
  rw [calculatePayment_some, hsub, hc]
  norm_num

/-- C9 witness: a session stopped one nanosecond after creation owes
2 * rate at rate 1. -/
theorem calculatePayment_within_first_hour_witness :
    (0 : ℤ) < 1 ∧ (1 : ℤ) ≤ nsPerHour ∧
    calculatePayment 1 0 (some (0 + 1)) 0 = 2 * 1 :=
  ⟨by norm_num, by norm_num [nsPerHour],
    calculatePayment_within_first_hour 1 0 1 0 (by norm_num)
      (by norm_num [nsPerHour])⟩

/-! Claim C10. -/

/-- C10 counterexample: an end 90 minutes before the start precedes it by
strictly more than one hour, yet the code returns 0, not a strictly
negative amount, at rate 1. -/
theorem calculatePayment_neg_90min_zero :
    nsPerHour < 5400000000000 ∧
    calculatePayment 1 0 (some (-5400000000000)) 0 = 0 := by
  have hc : ⌈((-5400000000000 - 0 : ℤ) : ℚ) / (nsPerHour : ℚ)⌉ = -1 := by
    rw [nsPerHour_cast, Int.ceil_eq_iff]
    push_cast
    norm_num
  refine ⟨by norm_num [nsPerHour], ?_⟩
  rw [calculatePayment_some, hc]
  push_cast
  ring

/-- C10 amended: a strictly negative amount appears exactly from two hours
of negative duration onward: for rate > 0 and d ≥ 2 hours, an end d before
the start yields at most -rate, hence a strictly negative charge; gaps
between one and two hours yield 0 instead. -/
theorem calculatePayment_two_hours_early_negative (rate : ℚ) (t d n : ℤ)
    (hrate : 0 < rate) (hd : 2 * nsPerHour ≤ d) :
    calculatePayment rate t (some (t - d)) n ≤ -rate ∧
    calculatePayment rate t (some (t - d)) n < 0 := by
  have hsub : t - d - t = -d := by ring
  have hdq : (7200000000000 : ℚ) ≤ (d : ℚ) := by
    have hdz : (7200000000000 : ℤ) ≤ d := by
      have h2 : 2 * nsPerHour = (7200000000000 : ℤ) := by norm_num [nsPerHour]
      linarith [hd, h2.symm.le, h2.le]
    exact_mod_cast hdz
  have hc : ⌈((-d : ℤ) : ℚ) / (nsPerHour : ℚ)⌉ ≤ -2 := by
    rw [nsPerHour_cast]
    apply Int.ceil_le.mpr
    push_cast
    rw [div_le_iff₀ (by norm_num : (0 : ℚ) < 3600000000000)]
    linarith
  have hcq : ((⌈((-d : ℤ) : ℚ) / (nsPerHour : ℚ)⌉ : ℤ) : ℚ) ≤ -2 := by
    exact_mod_cast hc
  have hmain : calculatePayment rate t (some (t - d)) n ≤ -rate := by
    rw [calculatePayment_some, hsub]
    have hstep : ((⌈((-d : ℤ) : ℚ) / (nsPerHour : ℚ)⌉ : ℚ) + 1) ≤ -1 := by
      linarith
    calc ((⌈((-d : ℤ) : ℚ) / (nsPerHour : ℚ)⌉ : ℚ) + 1) * rate
        ≤ (-1) * rate := mul_le_mul_of_nonneg_right hstep hrate.le
      _ = -rate := by ring
  exact ⟨hmain, lt_of_le_of_lt hmain (by linarith)⟩

/-- C10 witness: the amended theorem applied at rate 1, d exactly two
hours: the result is at most -1 and strictly negative. -/
theorem calculatePayment_two_hours_early_negative_witness :
    (0 : ℚ) < 1 ∧ 2 * nsPerHour ≤ (7200000000000 : ℤ) ∧
    (calculatePayment 1 0 (some (0 - 7200000000000)) 0 ≤ -1 ∧
      calculatePayment 1 0 (some (0 - 7200000000000)) 0 < 0) :=
  ⟨by norm_num, by norm_num [nsPerHour],
    calculatePayment_two_hours_early_negative 1 0 7200000000000 0
      (by norm_num) (by norm_num [nsPerHour])⟩
